import Mathlib

/-!
Verification of the redhat-developer/gitops-generator repository.

The development shallowly embeds the parts of the code that the checked
properties are about:

* the Kustomization reconciler (`pkg/resources/kustomization.go`): the
  `Kustomization` struct and its `AddResources` / `AddBases` / `AddPatches` /
  `CompareDifferenceAndAddCustomPatches` operations;
* the git synchronization driver (`pkg/gitops.go`): `CommitAndPush`,
  `CloneGenerateAndPush`, `GenerateOverlaysAndPush` and `RemoveAndPush`,
  modelled as trace-producing functions over an executor oracle, mirroring
  the repository's own `Executor` interface and its scripted test executors;
* the base-resource file-placement rule of `Generate` (`pkg/generate.go`),
  whose implementation file is not part of the snapshot and is therefore
  modelled from the repository's documentation and test fixtures.

Go slices become `List`, Go maps used only for membership become membership
tests on lists, and the fallible executor becomes an oracle returning an
output string and an optional error string.
-/

namespace GitopsGen

/-! ### String ordering

`sort.Strings` sorts by Go's `<` on strings, which compares byte by byte.
On the ASCII file names this library handles that is exactly lexicographic
codepoint order, which we define directly on the character data so that it
evaluates by kernel reduction. -/

/-- Lexicographic comparison of character lists by codepoint:
`lexLe as bs = true` iff `as` is lexicographically at most `bs`. -/
def lexLe : List Char → List Char → Bool
  | [], _ => true
  | _ :: _, [] => false
  | a :: as, b :: bs =>
    if a.toNat < b.toNat then true
    else if b.toNat < a.toNat then false
    else lexLe as bs

/-- The string order used by the model of `sort.Strings`. -/
def strLe (a b : String) : Prop := lexLe a.data b.data = true

instance : DecidableRel strLe := fun a b => Bool.decEq (lexLe a.data b.data) true

theorem lexLe_cons_lt {a b : Char} {as bs : List Char} (h : a.toNat < b.toNat) :
    lexLe (a :: as) (b :: bs) = true := by
  simp [lexLe, h]

theorem lexLe_cons_gt {a b : Char} {as bs : List Char} (h : b.toNat < a.toNat) :
    lexLe (a :: as) (b :: bs) = false := by
  simp [lexLe, Nat.lt_asymm h, h]

theorem lexLe_cons_eq {a b : Char} {as bs : List Char} (h : a.toNat = b.toNat) :
    lexLe (a :: as) (b :: bs) = lexLe as bs := by
  simp [lexLe, h]

theorem lexLe_total : ∀ as bs : List Char, lexLe as bs = true ∨ lexLe bs as = true
  | [], _ => Or.inl rfl
  | _ :: _, [] => Or.inr rfl
  | a :: as, b :: bs => by
    rcases Nat.lt_trichotomy a.toNat b.toNat with h | h | h
    · exact Or.inl (lexLe_cons_lt h)
    · rw [lexLe_cons_eq h, lexLe_cons_eq h.symm]
      exact lexLe_total as bs
    · exact Or.inr (lexLe_cons_lt h)

theorem lexLe_trans : ∀ as bs cs : List Char,
    lexLe as bs = true → lexLe bs cs = true → lexLe as cs = true
  | [], _, _, _, _ => rfl
  | _ :: _, [], _, h1, _ => by simp [lexLe] at h1
  | _ :: _, _ :: _, [], _, h2 => by simp [lexLe] at h2
  | a :: as, b :: bs, c :: cs, h1, h2 => by
    rcases Nat.lt_trichotomy a.toNat b.toNat with hab | hab | hab
    · rcases Nat.lt_trichotomy b.toNat c.toNat with hbc | hbc | hbc
      · exact lexLe_cons_lt (Nat.lt_trans hab hbc)
      · exact lexLe_cons_lt (hbc ▸ hab)
      · rw [lexLe_cons_gt hbc] at h2; cases h2
    · rcases Nat.lt_trichotomy b.toNat c.toNat with hbc | hbc | hbc
      · exact lexLe_cons_lt (hab.symm ▸ hbc)
      · rw [lexLe_cons_eq (hab.trans hbc)]
        rw [lexLe_cons_eq hab] at h1
        rw [lexLe_cons_eq hbc] at h2
        exact lexLe_trans as bs cs h1 h2
      · rw [lexLe_cons_gt hbc] at h2; cases h2
    · rw [lexLe_cons_gt hab] at h1; cases h1

theorem lexLe_antisymm : ∀ as bs : List Char,
    lexLe as bs = true → lexLe bs as = true → as = bs
  | [], [], _, _ => rfl
  | [], _ :: _, _, h2 => by simp [lexLe] at h2
  | _ :: _, [], h1, _ => by simp [lexLe] at h1
  | a :: as, b :: bs, h1, h2 => by
    rcases Nat.lt_trichotomy a.toNat b.toNat with h | h | h
    · rw [lexLe_cons_gt h] at h2; cases h2
    · have hc : a = b := Char.eq_of_val_eq (UInt32.toNat.inj h)
      rw [lexLe_cons_eq h] at h1
      rw [lexLe_cons_eq h.symm] at h2
      rw [hc, lexLe_antisymm as bs h1 h2]
    · rw [lexLe_cons_gt h] at h1; cases h1

instance : IsTotal String strLe :=
  ⟨fun a b => lexLe_total a.data b.data⟩

instance : IsTrans String strLe :=
  ⟨fun a b c => lexLe_trans a.data b.data c.data⟩

instance : IsAntisymm String strLe :=
  ⟨fun a b h1 h2 => by
    cases a; cases b
    exact congrArg String.mk (lexLe_antisymm _ _ h1 h2)⟩

/-! ### The Kustomization reconciler (pkg/resources/kustomization.go) -/

/-- `Patch` from pkg/resources/kustomization.go: holds the patch file path. -/
structure Patch where
  path : String
deriving DecidableEq, Repr

/-- `Kustomization` from pkg/resources/kustomization.go: structural
representation of the Kustomize file format.  The Go `map[string]string`
field `CommonLabels` is modelled as an association list; none of the
verified operations ever touch it. -/
structure Kustomization where
  APIVersion : String
  Kind : String
  Resources : List String
  Bases : List String
  Patches : List Patch
  CommonLabels : List (String × String)
deriving DecidableEq, Repr

/-- The first-occurrence loop of `removeDuplicatesAndSort`
(pkg/resources/kustomization.go lines 52-60): walk the input, keeping a
value only the first time it is seen.  `seen` plays the role of the Go
`exists` map, which is used purely for membership. -/
def dedupKeepFirst (seen : List String) : List String → List String
  | [] => []
  | v :: rest =>
    if v ∈ seen then dedupKeepFirst seen rest
    else v :: dedupKeepFirst (v :: seen) rest

/-- `removeDuplicatesAndSort` (pkg/resources/kustomization.go): keep first
occurrences, then `sort.Strings` the result (modelled by `insertionSort`
under `strLe`, which agrees with any sort on a duplicate-free list). -/
def removeDuplicatesAndSort (s : List String) : List String :=
  List.insertionSort strLe (dedupKeepFirst [] s)

/-- `AddResources` (pkg/resources/kustomization.go): append then
dedup-and-sort the `Resources` field.  The Go pointer receiver mutation is
modelled functionally. -/
def Kustomization.AddResources (k : Kustomization) (s : List String) : Kustomization :=
  { k with Resources := removeDuplicatesAndSort (k.Resources ++ s) }

/-- `AddBases` (pkg/resources/kustomization.go). -/
def Kustomization.AddBases (k : Kustomization) (s : List String) : Kustomization :=
  { k with Bases := removeDuplicatesAndSort (k.Bases ++ s) }

/-- `getPatchFiles` (pkg/resources/kustomization.go): project the paths out
of a patch list. -/
def getPatchFiles (patches : List Patch) : List String :=
  patches.map Patch.path

/-- `addFilestoPatches` (pkg/resources/kustomization.go): wrap paths back
into `Patch` values. -/
def addFilestoPatches (files : List String) : List Patch :=
  files.map Patch.mk

/-- `AddPatches` (pkg/resources/kustomization.go): dedup-and-sort the union
of the existing patch paths and the added ones, and replace the `Patches`
field with the result. -/
def Kustomization.AddPatches (k : Kustomization) (s : List String) : Kustomization :=
  { k with Patches := addFilestoPatches (removeDuplicatesAndSort (getPatchFiles k.Patches ++ s)) }

/-- The filter loop of `CompareDifferenceAndAddCustomPatches`
(pkg/resources/kustomization.go lines 71-76): keep, in order, the generated
entries that are not in the original path set.  `originalPaths` plays the
role of the Go `originalPatches` map, used purely for membership. -/
def newGeneratedFilesLoop (originalPaths : List String) : List String → List String
  | [] => []
  | g :: rest =>
    if g ∈ originalPaths then newGeneratedFilesLoop originalPaths rest
    else g :: newGeneratedFilesLoop originalPaths rest

/-- `CompareDifferenceAndAddCustomPatches` (pkg/resources/kustomization.go):
new generated files go to the top of the patch list, followed by all
original patches in their original order. -/
def Kustomization.CompareDifferenceAndAddCustomPatches
    (k : Kustomization) (original : List Patch) (generated : List String) : Kustomization :=
  let newGeneratedFiles := newGeneratedFilesLoop (getPatchFiles original) generated
  { k with Patches := addFilestoPatches (newGeneratedFiles ++ getPatchFiles original) }

/-! ### The git synchronization driver (pkg/gitops.go)

The drivers run external commands through the `Executor` interface.  They
are modelled as trace-producing functions over an oracle that supplies the
result of the n-th command executed during a call — exactly the shape of
the scripted output/error stacks the repository's mock executor replays.
The calls into `Generate` / `GenerateOverlays` / `GenerateParentKustomize`
are abstracted by their outcomes, since the claims below concern the
drivers themselves. -/

/-- One executor invocation: working directory, command name and argument
list — the triple `Executor.Execute` receives (pkg/gitops.go), and the unit
the repository's test executors record. -/
structure Execution where
  baseDir : String
  command : String
  args : List String
deriving DecidableEq, Repr

/-- The outcome of one executor invocation: combined output plus an
optional error message (Go's `([]byte, error)`). -/
structure ExecResult where
  out : String
  err : Option String
deriving DecidableEq, Repr

/-- An executor behavior: the result of the n-th command executed during a
driver call. -/
abbrev Oracle := Nat → ExecResult

/-- The observable outcome of one driver call: the executed commands in
order, the folder `GenerateParentKustomize` was invoked on (if it was;
only `RemoveAndPush` calls it) and the returned error (`none` = nil). -/
structure SyncResult where
  trace : List Execution
  gpkFolder : Option String
  err : Option String
deriving Repr

/-- Models Go's `filepath.Join` for the two-component joins used in
pkg/gitops.go: non-empty components joined with a slash.  (Go's `Join`
additionally runs `Clean`; no verified property depends on that
normalization.)  Variadic joins are modelled by left-nesting. -/
def filepathJoin (a b : String) : String :=
  if a = "" then b else if b = "" then a else a ++ "/" ++ b

/-- Go's `%q` verb for the strings interpolated into the driver's error
messages (quotation marks around the value; escaping of inner quotes does
not arise in the verified properties). -/
def goQuote (s : String) : String :=
  "\"" ++ s ++ "\""

/-- The message of `fmt.Errorf("failed to clone git repository in %q %q: %s", ...)`
(pkg/gitops.go lines 151-153, 296-298 and 330-332). -/
def cloneFailMsg (outputPath out errMsg : String) : String :=
  "failed to clone git repository in " ++ goQuote outputPath ++ " " ++ goQuote out
    ++ ": " ++ errMsg

/-- The message of `fmt.Errorf("failed to checkout branch %q in %q %q: %s", ...)`
(pkg/gitops.go lines 160-164, 301-305 and 337-341). -/
def checkoutFailMsg (branch repoPath out errMsg : String) : String :=
  "failed to checkout branch " ++ goQuote branch ++ " in " ++ goQuote repoPath
    ++ " " ++ goQuote out ++ ": " ++ errMsg

/-- Branch resolution, textually repeated in `CloneGenerateAndPush`,
`GenerateOverlaysAndPush` and `RemoveAndPush`: try `git switch <branch>`
(output ignored); on failure try `git checkout -b <branch>` once, whose
failure is terminal.  Returns the executed commands, the terminal error if
any, and the index of the next command. -/
def resolveBranch (oracle : Oracle) (repoPath branch : String) (idx : Nat) :
    List Execution × Option String × Nat :=
  let switchCall : Execution := ⟨repoPath, "git", ["switch", branch]⟩
  let r := oracle idx
  match r.err with
  | none => ([switchCall], none, idx + 1)
  | some _ =>
    let checkoutCall : Execution := ⟨repoPath, "git", ["checkout", "-b", branch]⟩
    let r2 := oracle (idx + 1)
    match r2.err with
    | some e => ([switchCall, checkoutCall],
        some (checkoutFailMsg branch repoPath r2.out e), idx + 2)
    | none => ([switchCall, checkoutCall], none, idx + 2)

/-- The repository working directory `CommitAndPush` operates in
(pkg/gitops.go lines 182-185). -/
def commitAndPushRepoPath (outputPath repoPathOverride componentName : String) : String :=
  if repoPathOverride ≠ "" then filepathJoin outputPath repoPathOverride
  else filepathJoin outputPath componentName

/-- `CommitAndPush` (pkg/gitops.go lines 181-203): stage everything, check
the cached diff, and only when the diff output is non-empty commit and push.
Returns the executed commands and the error (`none` = nil).  `oracle i` is
the result of the i-th command of the enclosing driver call, starting at
`idx`. -/
def CommitAndPush (oracle : Oracle) (idx : Nat)
    (outputPath repoPathOverride remote componentName branch commitMessage : String) :
    List Execution × Option String :=
  let repoPath := commitAndPushRepoPath outputPath repoPathOverride componentName
  let addCall : Execution := ⟨repoPath, "git", ["add", "."]⟩
  let r1 := oracle idx
  match r1.err with
  | some e =>
    ([addCall], some ("failed to add files for component " ++ goQuote componentName
      ++ " to repository in " ++ goQuote repoPath ++ " " ++ goQuote r1.out ++ ": " ++ e))
  | none =>
    let diffCall : Execution := ⟨repoPath, "git", ["--no-pager", "diff", "--cached"]⟩
    let r2 := oracle (idx + 1)
    match r2.err with
    | some e =>
      ([addCall, diffCall], some ("failed to check git diff in repository "
        ++ goQuote repoPath ++ " " ++ goQuote r2.out ++ ": " ++ e))
    | none =>
      if r2.out ≠ "" then
        let commitCall : Execution := ⟨repoPath, "git", ["commit", "-m", commitMessage]⟩
        let r3 := oracle (idx + 2)
        match r3.err with
        | some e =>
          ([addCall, diffCall, commitCall], some ("failed to commit files to repository in "
            ++ goQuote repoPath ++ " " ++ goQuote r3.out ++ ": " ++ e))
        | none =>
          let pushCall : Execution := ⟨repoPath, "git", ["push", "origin", branch]⟩
          let r4 := oracle (idx + 3)
          match r4.err with
          | some e =>
            ([addCall, diffCall, commitCall, pushCall],
              some ("failed push remote to repository " ++ goQuote remote
                ++ " " ++ goQuote r4.out ++ ": " ++ e))
          | none => ([addCall, diffCall, commitCall, pushCall], none)
      else ([addCall, diffCall], none)

/-- The tail of `CloneGenerateAndPush` after branch resolution
(pkg/gitops.go lines 166-178): delete the component base folder, run
`Generate` (abstracted by `genErr`), then commit and push when `doPush`.
`pre`/`idx` carry the commands already executed, which depend on whether the
checkout fallback ran. -/
def cloneGenerateTail (oracle : Oracle)
    (outputPath remote componentName branch context : String)
    (genErr : Option String) (doPush : Bool) (pre : List Execution) (idx : Nat) : SyncResult :=
  let repoPath := filepathJoin outputPath componentName
  let gitopsFolder := filepathJoin repoPath context
  let componentPath :=
    filepathJoin (filepathJoin (filepathJoin gitopsFolder "components") componentName) "base"
  let rmArg := filepathJoin (filepathJoin "components" componentName) "base"
  let rmCall : Execution := ⟨repoPath, "rm", ["-rf", rmArg]⟩
  let r := oracle idx
  match r.err with
  | some e =>
    ⟨pre ++ [rmCall], none, some ("failed to delete " ++ goQuote rmArg
      ++ " folder in repository in " ++ goQuote repoPath ++ " " ++ goQuote r.out ++ ": " ++ e)⟩
  | none =>
    match genErr with
    | some e =>
      ⟨pre ++ [rmCall], none, some ("failed to generate the gitops resources in "
        ++ goQuote componentPath ++ " for component " ++ goQuote componentName ++ ": " ++ e)⟩
    | none =>
      if doPush then
        let cp := CommitAndPush oracle (idx + 1) outputPath "" remote componentName branch
          ("Generate GitOps base resources for component " ++ componentName)
        ⟨pre ++ (rmCall :: cp.1), none, cp.2⟩
      else ⟨pre ++ [rmCall], none, none⟩

/-- `CloneGenerateAndPush` (pkg/gitops.go lines 149-179).  The component is
represented by its name, the only field the driver itself reads. -/
def CloneGenerateAndPush (oracle : Oracle)
    (outputPath remote componentName branch context : String)
    (genErr : Option String) (doPush : Bool) : SyncResult :=
  let cloneCall : Execution := ⟨outputPath, "git", ["clone", remote, componentName]⟩
  let r1 := oracle 0
  match r1.err with
  | some e => ⟨[cloneCall], none, some (cloneFailMsg outputPath r1.out e)⟩
  | none =>
    let repoPath := filepathJoin outputPath componentName
    let br := resolveBranch oracle repoPath branch 1
    match br.2.1 with
    | some e => ⟨cloneCall :: br.1, none, some e⟩
    | none =>
      cloneGenerateTail oracle outputPath remote componentName branch context genErr doPush
        (cloneCall :: br.1) br.2.2

/-- The tail of `GenerateOverlaysAndPush` after the optional clone and
branch resolution (pkg/gitops.go lines 308-318): run `GenerateOverlays`
(abstracted by `genErr`), then commit and push when `doPush`. -/
def generateOverlaysTail (oracle : Oracle)
    (outputPath remote componentName applicationName environmentName branch context : String)
    (genErr : Option String) (doPush : Bool) (pre : List Execution) (idx : Nat) : SyncResult :=
  let repoPath := filepathJoin outputPath applicationName
  let gitopsFolder := filepathJoin repoPath context
  let componentEnvOverlaysPath :=
    filepathJoin (filepathJoin (filepathJoin (filepathJoin gitopsFolder "components")
      componentName) "overlays") environmentName
  match genErr with
  | some e =>
    ⟨pre, none, some ("failed to generate the gitops resources in overlays dir "
      ++ goQuote componentEnvOverlaysPath ++ " for component "
      ++ goQuote componentName ++ ": " ++ e)⟩
  | none =>
    if doPush then
      let cp := CommitAndPush oracle idx outputPath applicationName remote componentName branch
        ("Generate " ++ environmentName ++ " environment overlays for component " ++ componentName)
      ⟨pre ++ cp.1, none, cp.2⟩
    else ⟨pre, none, none⟩

/-- `GenerateOverlaysAndPush` (pkg/gitops.go lines 291-319): clone and
resolve the branch only when `clone` is set, then generate the overlays and
optionally commit and push. -/
def GenerateOverlaysAndPush (oracle : Oracle) (outputPath : String) (clone : Bool)
    (remote componentName applicationName environmentName branch context : String)
    (genErr : Option String) (doPush : Bool) : SyncResult :=
  let repoPath := filepathJoin outputPath applicationName
  if clone then
    let cloneCall : Execution := ⟨outputPath, "git", ["clone", remote, applicationName]⟩
    let r1 := oracle 0
    match r1.err with
    | some e => ⟨[cloneCall], none, some (cloneFailMsg outputPath r1.out e)⟩
    | none =>
      let br := resolveBranch oracle repoPath branch 1
      match br.2.1 with
      | some e => ⟨cloneCall :: br.1, none, some e⟩
      | none =>
        generateOverlaysTail oracle outputPath remote componentName applicationName
          environmentName branch context genErr doPush (cloneCall :: br.1) br.2.2
  else
    generateOverlaysTail oracle outputPath remote componentName applicationName
      environmentName branch context genErr doPush [] 0

/-- The tail of `RemoveAndPush` after branch resolution (pkg/gitops.go
lines 343-357): delete the whole component directory, invoke
`GenerateParentKustomize` on the gitops folder (its outcome abstracted by
`gpkErr`, its invocation recorded in `gpkFolder`), then commit and push when
`doPush`. -/
def removeTail (oracle : Oracle)
    (outputPath remote componentName branch context : String)
    (gpkErr : Option String) (doPush : Bool) (pre : List Execution) (idx : Nat) : SyncResult :=
  let repoPath := filepathJoin outputPath componentName
  let gitopsFolder := filepathJoin repoPath context
  let componentPath := filepathJoin (filepathJoin gitopsFolder "components") componentName
  let rmCall : Execution := ⟨repoPath, "rm", ["-rf", componentPath]⟩
  let r := oracle idx
  match r.err with
  | some e =>
    ⟨pre ++ [rmCall], none, some ("failed to delete " ++ goQuote componentPath
      ++ " folder in repository in " ++ goQuote repoPath ++ " " ++ goQuote r.out ++ ": " ++ e)⟩
  | none =>
    match gpkErr with
    | some e =>
      ⟨pre ++ [rmCall], some gitopsFolder,
        some ("failed to re-generate the gitops resources in " ++ goQuote componentPath
          ++ " for component " ++ goQuote componentName ++ ": " ++ e)⟩
    | none =>
      if doPush then
        let cp := CommitAndPush oracle (idx + 1) outputPath "" remote componentName branch
          ("Removed component " ++ componentName)
        ⟨pre ++ (rmCall :: cp.1), some gitopsFolder, cp.2⟩
      else ⟨pre ++ [rmCall], some gitopsFolder, none⟩

/-- `RemoveAndPush` (pkg/gitops.go lines 329-358). -/
def RemoveAndPush (oracle : Oracle)
    (outputPath remote componentName branch context : String)
    (gpkErr : Option String) (doPush : Bool) : SyncResult :=
  let cloneCall : Execution := ⟨outputPath, "git", ["clone", remote, componentName]⟩
  let r1 := oracle 0
  match r1.err with
  | some e => ⟨[cloneCall], none, some (cloneFailMsg outputPath r1.out e)⟩
  | none =>
    let repoPath := filepathJoin outputPath componentName
    let br := resolveBranch oracle repoPath branch 1
    match br.2.1 with
    | some e => ⟨cloneCall :: br.1, none, some e⟩
    | none =>
      removeTail oracle outputPath remote componentName branch context gpkErr doPush
        (cloneCall :: br.1) br.2.2

/-- The leading argument of an executed command (`""` when there is none):
the key that distinguishes every command the drivers can issue
(`clone`, `switch`, `checkout`, `-rf`, `add`, `--no-pager`, `commit`,
`push`). -/
def argHead (e : Execution) : String :=
  e.args.head?.getD ""

/-- `pat` occurs at the front of `s` (character lists). -/
def leadsWith : List Char → List Char → Bool
  | [], _ => true
  | _ :: _, [] => false
  | p :: ps, c :: cs => p == c && leadsWith ps cs

/-- `pat` occurs contiguously somewhere in `s` (character lists). -/
def occursIn (pat : List Char) : List Char → Bool
  | [] => leadsWith pat []
  | c :: cs => leadsWith pat (c :: cs) || occursIn pat cs

/-- `pat` is a contiguous substring of `s`. -/
def strOccurs (s pat : String) : Bool :=
  occursIn pat.data s.data

/-- An executor on which every command succeeds with empty output. -/
def oracleAllOk : Oracle := fun _ => ⟨"", none⟩

/-- An executor on which the first command succeeds and every later command
fails (so `git switch` fails and the `git checkout -b` fallback fails too). -/
def oracleBranchFail : Oracle := fun n =>
  if n = 0 then ⟨"", none⟩ else ⟨"test output1", some "Permission denied"⟩

/-- An executor scripted for a `CommitAndPush` run whose staged diff is
non-empty and whose `git push` fails — the shape of the repository's
"git push failure with sanitized error message" test. -/
def oraclePushFail : Oracle := fun n =>
  if n = 1 then ⟨"test output1", none⟩
  else if n = 3 then ⟨"test output1", some "Fatal error"⟩
  else ⟨"", none⟩

/-- An executor on which every command succeeds and the staged-diff check
(command index 4 of a `RemoveAndPush` run) reports changes. -/
def oracleRemoveOk : Oracle := fun n =>
  if n = 4 then ⟨"diff output", none⟩ else ⟨"", none⟩

/-- An executor whose very first command fails. -/
def oracleCloneFail : Oracle := fun _ => ⟨"test output1", some "Fatal error"⟩

/-! ### Base-resource file placement (pkg/generate.go)

`Generate`'s implementation file is not part of the snapshot; only its
documentation (docs/generation.md) and its tests are.  The placement rule
below is modelled from those. -/

/-- Modelled from the spec: the `KubernetesResources` bundle of
`GeneratorOptions` (api/v1alpha1/generator_options.go, not part of the
snapshot) — explicit lists of Deployments, Services, Routes, Ingresses and
an `Others` catch-all.  Resources are identified abstractly by name; their
schemas are out of scope. -/
structure KubernetesResources where
  Deployments : List String
  Services : List String
  Routes : List String
  Ingresses : List String
  Others : List String
deriving DecidableEq, Repr

/-- The explicit-mode layout of the base directory: which resource each
canonical file holds, and the ordered contents of `other_resources.yaml`. -/
structure BaseLayout where
  deploymentYaml : Option String
  serviceYaml : Option String
  routeYaml : Option String
  otherResourcesYaml : List String
deriving DecidableEq, Repr

/-- Modelled from the spec: the file-placement rule of `Generate`
(pkg/generate.go, not part of the snapshot).  Reconstructed from
docs/generation.md — the first Deployment/Service/Route goes to its
canonical file and "the remaining resources are appended to Others" — and
pinned by the `TestGenerate` fixtures: `others1 = [deployment2, service2,
route2]` and `others2 = [pod1, deployment2, ingress1, ingress2]`, the
expected byte-exact contents of `other_resources.yaml`.  The aggregate
therefore starts from the user-supplied `Others` list, and the non-first
resources of each kind are appended to it in kind order, followed by all
Ingresses. -/
def placeKubernetesResources (r : KubernetesResources) : BaseLayout :=
  let aggregate0 := r.Others
  let aggregate1 := aggregate0 ++ r.Deployments.drop 1
  let aggregate2 := aggregate1 ++ r.Services.drop 1
  let aggregate3 := aggregate2 ++ r.Routes.drop 1
  let aggregate4 := aggregate3 ++ r.Ingresses
  ⟨r.Deployments.head?, r.Services.head?, r.Routes.head?, aggregate4⟩

/-- The aggregate-file ordering asserted by the claim under test: the extra
resources in discovery order Deployments, Services, Routes, Ingresses, with
the `Others` entries last. -/
def claimedAggregateOrder (r : KubernetesResources) : List String :=
  r.Deployments.drop 1 ++ r.Services.drop 1 ++ r.Routes.drop 1 ++ r.Ingresses ++ r.Others

/-- The "Multiple deployments, ingresses and other multiple resources"
input of `TestGenerate`: two Deployments, two Ingresses, and a Pod supplied
through `Others`. -/
def c6Fixture : KubernetesResources :=
  ⟨["deployment1", "deployment2"], [], [], ["ingress1", "ingress2"], ["pod1"]⟩

theorem mem_dedupKeepFirst {x : String} :
    ∀ {seen l : List String}, x ∈ dedupKeepFirst seen l ↔ x ∈ l ∧ x ∉ seen := by
  intro seen l
  induction l generalizing seen with
  | nil => simp [dedupKeepFirst]
  | cons v rest ih =>
    by_cases h : v ∈ seen
    · rw [dedupKeepFirst, if_pos h, ih]
      simp only [List.mem_cons]
      by_cases hv : x = v
      · subst hv; simp [h]
      · simp [hv]
    · rw [dedupKeepFirst, if_neg h]
      simp only [List.mem_cons, ih]
      by_cases hv : x = v
      · subst hv; simp [h]
      · simp [hv]

theorem nodup_dedupKeepFirst : ∀ (seen l : List String), (dedupKeepFirst seen l).Nodup := by
  intro seen l
  induction l generalizing seen with
  | nil => simp [dedupKeepFirst]
  | cons v rest ih =>
    by_cases h : v ∈ seen
    · simpa [dedupKeepFirst, if_pos h] using ih seen
    · rw [dedupKeepFirst, if_neg h]
      refine List.nodup_cons.2 ⟨fun hm => ?_, ih (v :: seen)⟩
      exact (mem_dedupKeepFirst.1 hm).2 (List.mem_cons_self v seen)

theorem sorted_removeDuplicatesAndSort (s : List String) :
    List.Sorted strLe (removeDuplicatesAndSort s) :=
  List.sorted_insertionSort strLe _

theorem nodup_removeDuplicatesAndSort (s : List String) :
    (removeDuplicatesAndSort s).Nodup :=
  (List.perm_insertionSort strLe _).nodup_iff.mpr (nodup_dedupKeepFirst [] s)

theorem mem_removeDuplicatesAndSort {x : String} {s : List String} :
    x ∈ removeDuplicatesAndSort s ↔ x ∈ s := by
  rw [removeDuplicatesAndSort, (List.perm_insertionSort strLe _).mem_iff, mem_dedupKeepFirst]
  simp

/-- Two inputs with the same members dedup-and-sort to the same list: the
output of `removeDuplicatesAndSort` is a pure function of the input's
membership set. -/
theorem removeDuplicatesAndSort_congr {a b : List String}
    (h : ∀ x, x ∈ a ↔ x ∈ b) :
    removeDuplicatesAndSort a = removeDuplicatesAndSort b := by
  refine List.eq_of_perm_of_sorted ?_ (sorted_removeDuplicatesAndSort a)
    (sorted_removeDuplicatesAndSort b)
  refine (List.perm_ext_iff_of_nodup (nodup_removeDuplicatesAndSort a)
    (nodup_removeDuplicatesAndSort b)).2 fun x => ?_
  rw [mem_removeDuplicatesAndSort, mem_removeDuplicatesAndSort]
  exact h x

theorem newGeneratedFilesLoop_eq_filter (op l : List String) :
    newGeneratedFilesLoop op l = l.filter (fun g => decide (g ∉ op)) := by
  induction l with
  | nil => rfl
  | cons g rest ih =>
    by_cases h : g ∈ op <;>
      simp [newGeneratedFilesLoop, List.filter_cons, h, ih]

theorem getPatchFiles_addFilestoPatches (l : List String) :
    getPatchFiles (addFilestoPatches l) = l := by
  induction l with
  | nil => rfl
  | cons x rest ih => simpa [getPatchFiles, addFilestoPatches] using ih

/-- C1: the patch preservation merge sets the patches to the generated
entries not already present in the original list, in generated order,
followed by all original entries in their original order, with no
deduplication or sorting; in particular originals `[A, B]` merged with
generated `[B, C]` yield `[C, A, B]`. -/
theorem C1_patch_preservation_merge
    (k : Kustomization) (original : List Patch) (generated : List String) :
    (k.CompareDifferenceAndAddCustomPatches original generated).Patches
      = addFilestoPatches
          (generated.filter (fun g => decide (g ∉ getPatchFiles original))
            ++ getPatchFiles original)
    ∧ (Kustomization.CompareDifferenceAndAddCustomPatches
          ⟨"", "", [], [], [], []⟩ [⟨"A"⟩, ⟨"B"⟩] ["B", "C"]).Patches
      = [⟨"C"⟩, ⟨"A"⟩, ⟨"B"⟩] := by
  constructor
  · simp [Kustomization.CompareDifferenceAndAddCustomPatches, newGeneratedFilesLoop_eq_filter]
  · decide

/-- C2: `AddResources` and `AddBases` produce the sorted, duplicate-free
union of the old and added paths; they are order-independent across calls
and idempotent, so the final list depends only on the set of paths ever
added. -/
theorem C2_add_resources_bases_set_semantics (k : Kustomization) (s t : List String) :
    (List.Sorted strLe (k.AddResources s).Resources
      ∧ (k.AddResources s).Resources.Nodup
      ∧ (∀ x, x ∈ (k.AddResources s).Resources ↔ x ∈ k.Resources ∨ x ∈ s)
      ∧ (k.AddResources s).AddResources t = (k.AddResources t).AddResources s
      ∧ (k.AddResources s).AddResources s = k.AddResources s)
    ∧ (List.Sorted strLe (k.AddBases s).Bases
      ∧ (k.AddBases s).Bases.Nodup
      ∧ (∀ x, x ∈ (k.AddBases s).Bases ↔ x ∈ k.Bases ∨ x ∈ s)
      ∧ (k.AddBases s).AddBases t = (k.AddBases t).AddBases s
      ∧ (k.AddBases s).AddBases s = k.AddBases s) := by
  constructor
  · refine ⟨sorted_removeDuplicatesAndSort _, nodup_removeDuplicatesAndSort _, ?_, ?_, ?_⟩
    · intro x
      simp [Kustomization.AddResources, mem_removeDuplicatesAndSort]
    · simp only [Kustomization.AddResources]
      congr 1
      refine removeDuplicatesAndSort_congr fun x => ?_
      simp only [List.mem_append, mem_removeDuplicatesAndSort]
      tauto
    · simp only [Kustomization.AddResources]
      congr 1
      refine removeDuplicatesAndSort_congr fun x => ?_
      simp only [List.mem_append, mem_removeDuplicatesAndSort]
      tauto
  · refine ⟨sorted_removeDuplicatesAndSort _, nodup_removeDuplicatesAndSort _, ?_, ?_, ?_⟩
    · intro x
      simp [Kustomization.AddBases, mem_removeDuplicatesAndSort]
    · simp only [Kustomization.AddBases]
      congr 1
      refine removeDuplicatesAndSort_congr fun x => ?_
      simp only [List.mem_append, mem_removeDuplicatesAndSort]
      tauto
    · simp only [Kustomization.AddBases]
      congr 1
      refine removeDuplicatesAndSort_congr fun x => ?_
      simp only [List.mem_append, mem_removeDuplicatesAndSort]
      tauto

/-- C9: `AddPatches`, unlike the preservation merge, replaces the `Patches`
field with the deduplicated, lexicographically sorted union of the old and
added patch paths; in particular existing insertion order is not preserved
(patches `[b.yaml, a.yaml]` become `[a.yaml, b.yaml]` even when nothing is
added). -/
theorem C9_add_patches_sorts_and_dedups (k : Kustomization) (s : List String) :
    (k.AddPatches s).Patches
        = addFilestoPatches (removeDuplicatesAndSort (getPatchFiles k.Patches ++ s))
    ∧ List.Sorted strLe (getPatchFiles (k.AddPatches s).Patches)
    ∧ (getPatchFiles (k.AddPatches s).Patches).Nodup
    ∧ (∀ x, x ∈ getPatchFiles (k.AddPatches s).Patches ↔ x ∈ getPatchFiles k.Patches ∨ x ∈ s)
    ∧ (Kustomization.AddPatches ⟨"", "", [], [], [⟨"b.yaml"⟩, ⟨"a.yaml"⟩], []⟩ []).Patches
        = [⟨"a.yaml"⟩, ⟨"b.yaml"⟩] := by
  refine ⟨rfl, ?_, ?_, ?_, by decide⟩
  · simpa [Kustomization.AddPatches, getPatchFiles_addFilestoPatches] using
      sorted_removeDuplicatesAndSort (getPatchFiles k.Patches ++ s)
  · simpa [Kustomization.AddPatches, getPatchFiles_addFilestoPatches] using
      nodup_removeDuplicatesAndSort (getPatchFiles k.Patches ++ s)
  · intro x
    simp [Kustomization.AddPatches, getPatchFiles_addFilestoPatches,
      mem_removeDuplicatesAndSort]

/-- C10: each of `AddResources`, `AddBases` and `AddPatches` mutates only its
own field of the `Kustomization` and leaves every other field unchanged. -/
theorem C10_add_operations_frame (k : Kustomization) (s : List String) :
    ((k.AddResources s).Bases = k.Bases ∧ (k.AddResources s).Patches = k.Patches
      ∧ (k.AddResources s).APIVersion = k.APIVersion ∧ (k.AddResources s).Kind = k.Kind
      ∧ (k.AddResources s).CommonLabels = k.CommonLabels)
    ∧ ((k.AddBases s).Resources = k.Resources ∧ (k.AddBases s).Patches = k.Patches
      ∧ (k.AddBases s).APIVersion = k.APIVersion ∧ (k.AddBases s).Kind = k.Kind
      ∧ (k.AddBases s).CommonLabels = k.CommonLabels)
    ∧ ((k.AddPatches s).Resources = k.Resources ∧ (k.AddPatches s).Bases = k.Bases
      ∧ (k.AddPatches s).APIVersion = k.APIVersion ∧ (k.AddPatches s).Kind = k.Kind
      ∧ (k.AddPatches s).CommonLabels = k.CommonLabels) :=
  ⟨⟨rfl, rfl, rfl, rfl, rfl⟩, ⟨rfl, rfl, rfl, rfl, rfl⟩, ⟨rfl, rfl, rfl, rfl, rfl⟩⟩

/-! ### Git sync driver lemmas -/

/-- Whatever the executor does, the commands a `CommitAndPush` run issues
are, by leading argument, a subsequence of `add`, `--no-pager`, `commit`,
`push`. -/
theorem commitAndPush_argHead_sublist (oracle : Oracle) (idx : Nat)
    (outputPath repoPathOverride remote componentName branch commitMessage : String) :
    ((CommitAndPush oracle idx outputPath repoPathOverride remote componentName branch
        commitMessage).1.map argHead).Sublist ["add", "--no-pager", "commit", "push"] := by
  simp only [CommitAndPush]
  split
  · exact (by decide : (["add"] : List String).Sublist ["add", "--no-pager", "commit", "push"])
  · split
    · exact (by decide : (["add", "--no-pager"] : List String).Sublist ["add", "--no-pager", "commit", "push"])
    · split
      · split
        · exact (by decide : (["add", "--no-pager", "commit"] : List String).Sublist ["add", "--no-pager", "commit", "push"])
        · split
          · exact (by decide :
              (["add", "--no-pager", "commit", "push"] : List String).Sublist ["add", "--no-pager", "commit", "push"])
          · exact (by decide :
              (["add", "--no-pager", "commit", "push"] : List String).Sublist ["add", "--no-pager", "commit", "push"])
      · exact (by decide : (["add", "--no-pager"] : List String).Sublist ["add", "--no-pager", "commit", "push"])

/-- The branch-resolution block issues, by leading argument, a subsequence
of `switch`, `checkout`. -/
theorem resolveBranch_argHead_sublist (oracle : Oracle) (repoPath branch : String) (idx : Nat) :
    (((resolveBranch oracle repoPath branch idx).1).map argHead).Sublist
      ["switch", "checkout"] := by
  simp only [resolveBranch]
  split
  · exact (by decide : (["switch"] : List String).Sublist ["switch", "checkout"])
  · split
    · exact (by decide : (["switch", "checkout"] : List String).Sublist ["switch", "checkout"])
    · exact (by decide : (["switch", "checkout"] : List String).Sublist ["switch", "checkout"])

theorem cloneGenerateTail_argHead_sublist (oracle : Oracle)
    (outputPath remote componentName branch context : String)
    (genErr : Option String) (doPush : Bool) (pre : List Execution) (idx : Nat)
    (hpre : (pre.map argHead).Sublist ["clone", "switch", "checkout"]) :
    ((cloneGenerateTail oracle outputPath remote componentName branch context genErr doPush
        pre idx).trace.map argHead).Sublist
      ["clone", "switch", "checkout", "-rf", "add", "--no-pager", "commit", "push"] := by
  simp only [cloneGenerateTail]
  split
  · dsimp only
    rw [List.map_append]
    exact List.Sublist.append hpre
      (by decide : (["-rf"] : List String).Sublist ["-rf", "add", "--no-pager", "commit", "push"])
  · split
    · dsimp only
      rw [List.map_append]
      exact List.Sublist.append hpre
        (by decide : (["-rf"] : List String).Sublist ["-rf", "add", "--no-pager", "commit", "push"])
    · split
      · dsimp only
        rw [List.map_append, List.map_cons]
        exact List.Sublist.append hpre
          (List.Sublist.cons₂ _ (commitAndPush_argHead_sublist oracle (idx + 1) outputPath ""
            remote componentName branch ("Generate GitOps base resources for component "
              ++ componentName)))
      · dsimp only
        rw [List.map_append]
        exact List.Sublist.append hpre
          (by decide :
            (["-rf"] : List String).Sublist ["-rf", "add", "--no-pager", "commit", "push"])

theorem removeTail_argHead_sublist (oracle : Oracle)
    (outputPath remote componentName branch context : String)
    (gpkErr : Option String) (doPush : Bool) (pre : List Execution) (idx : Nat)
    (hpre : (pre.map argHead).Sublist ["clone", "switch", "checkout"]) :
    ((removeTail oracle outputPath remote componentName branch context gpkErr doPush
        pre idx).trace.map argHead).Sublist
      ["clone", "switch", "checkout", "-rf", "add", "--no-pager", "commit", "push"] := by
  simp only [removeTail]
  split
  · dsimp only
    rw [List.map_append]
    exact List.Sublist.append hpre
      (by decide : (["-rf"] : List String).Sublist ["-rf", "add", "--no-pager", "commit", "push"])
  · split
    · dsimp only
      rw [List.map_append]
      exact List.Sublist.append hpre
        (by decide : (["-rf"] : List String).Sublist ["-rf", "add", "--no-pager", "commit", "push"])
    · split
      · dsimp only
        rw [List.map_append, List.map_cons]
        exact List.Sublist.append hpre
          (List.Sublist.cons₂ _ (commitAndPush_argHead_sublist oracle (idx + 1) outputPath ""
            remote componentName branch ("Removed component " ++ componentName)))
      · dsimp only
        rw [List.map_append]
        exact List.Sublist.append hpre
          (by decide :
            (["-rf"] : List String).Sublist ["-rf", "add", "--no-pager", "commit", "push"])

theorem generateOverlaysTail_argHead_sublist (oracle : Oracle)
    (outputPath remote componentName applicationName environmentName branch context : String)
    (genErr : Option String) (doPush : Bool) (pre : List Execution) (idx : Nat)
    (hpre : (pre.map argHead).Sublist ["clone", "switch", "checkout"]) :
    ((generateOverlaysTail oracle outputPath remote componentName applicationName
        environmentName branch context genErr doPush pre idx).trace.map argHead).Sublist
      ["clone", "switch", "checkout", "-rf", "add", "--no-pager", "commit", "push"] := by
  have hpre4 : (pre.map argHead).Sublist ["clone", "switch", "checkout", "-rf"] :=
    hpre.trans (by decide)
  simp only [generateOverlaysTail]
  split
  · dsimp only
    exact hpre.trans (by decide)
  · split
    · dsimp only
      rw [List.map_append]
      exact List.Sublist.append hpre4
        (commitAndPush_argHead_sublist oracle idx outputPath applicationName remote
          componentName branch ("Generate " ++ environmentName
            ++ " environment overlays for component " ++ componentName))
    · dsimp only
      exact hpre.trans (by decide)

theorem cloneGenerateAndPush_argHead_sublist (oracle : Oracle)
    (outputPath remote componentName branch context : String)
    (genErr : Option String) (doPush : Bool) :
    ((CloneGenerateAndPush oracle outputPath remote componentName branch context genErr
        doPush).trace.map argHead).Sublist
      ["clone", "switch", "checkout", "-rf", "add", "--no-pager", "commit", "push"] := by
  simp only [CloneGenerateAndPush]
  split
  · exact (by decide : (["clone"] : List String).Sublist ["clone", "switch", "checkout", "-rf", "add", "--no-pager", "commit", "push"])
  · split
    · dsimp only
      rw [List.map_cons]
      exact List.Sublist.cons₂ _
        ((resolveBranch_argHead_sublist oracle _ branch 1).trans (by decide))
    · exact cloneGenerateTail_argHead_sublist oracle outputPath remote componentName branch
        context genErr doPush _ _
        (by rw [List.map_cons]
            exact List.Sublist.cons₂ _ (resolveBranch_argHead_sublist oracle _ branch 1))

theorem removeAndPush_argHead_sublist (oracle : Oracle)
    (outputPath remote componentName branch context : String)
    (gpkErr : Option String) (doPush : Bool) :
    ((RemoveAndPush oracle outputPath remote componentName branch context gpkErr
        doPush).trace.map argHead).Sublist
      ["clone", "switch", "checkout", "-rf", "add", "--no-pager", "commit", "push"] := by
  simp only [RemoveAndPush]
  split
  · exact (by decide : (["clone"] : List String).Sublist ["clone", "switch", "checkout", "-rf", "add", "--no-pager", "commit", "push"])
  · split
    · dsimp only
      rw [List.map_cons]
      exact List.Sublist.cons₂ _
        ((resolveBranch_argHead_sublist oracle _ branch 1).trans (by decide))
    · exact removeTail_argHead_sublist oracle outputPath remote componentName branch
        context gpkErr doPush _ _
        (by rw [List.map_cons]
            exact List.Sublist.cons₂ _ (resolveBranch_argHead_sublist oracle _ branch 1))

theorem generateOverlaysAndPush_argHead_sublist (oracle : Oracle) (outputPath : String)
    (clone : Bool) (remote componentName applicationName environmentName branch context : String)
    (genErr : Option String) (doPush : Bool) :
    ((GenerateOverlaysAndPush oracle outputPath clone remote componentName applicationName
        environmentName branch context genErr doPush).trace.map argHead).Sublist
      ["clone", "switch", "checkout", "-rf", "add", "--no-pager", "commit", "push"] := by
  simp only [GenerateOverlaysAndPush]
  split
  · split
    · exact (by decide : (["clone"] : List String).Sublist ["clone", "switch", "checkout", "-rf", "add", "--no-pager", "commit", "push"])
    · split
      · dsimp only
        rw [List.map_cons]
        exact List.Sublist.cons₂ _
          ((resolveBranch_argHead_sublist oracle _ branch 1).trans (by decide))
      · exact generateOverlaysTail_argHead_sublist oracle outputPath remote componentName
          applicationName environmentName branch context genErr doPush _ _
          (by rw [List.map_cons]
              exact List.Sublist.cons₂ _ (resolveBranch_argHead_sublist oracle _ branch 1))
  · exact generateOverlaysTail_argHead_sublist oracle outputPath remote componentName
      applicationName environmentName branch context genErr doPush [] 0 (by decide)

/-- The messages produced when both branch commands fail mention the
attempted branch and the repository working directory. -/
theorem checkoutFailMsg_mentions (branch repoPath out errMsg : String) :
    (∃ p q, checkoutFailMsg branch repoPath out errMsg = p ++ (branch ++ q))
    ∧ ∃ p q, checkoutFailMsg branch repoPath out errMsg = p ++ (repoPath ++ q) := by
  constructor
  · refine ⟨"failed to checkout branch " ++ "\"",
      "\"" ++ (" in " ++ (goQuote repoPath ++ (" " ++ (goQuote out ++ (": " ++ errMsg))))), ?_⟩
    simp only [checkoutFailMsg, goQuote, String.append_assoc]
  · refine ⟨"failed to checkout branch " ++ (goQuote branch ++ (" in " ++ "\"")),
      "\"" ++ (" " ++ (goQuote out ++ (": " ++ errMsg))), ?_⟩
    simp only [checkoutFailMsg, goQuote, String.append_assoc]

/-- C3: when `git add .` succeeds and the staged diff command succeeds with
empty output, `CommitAndPush` executes no `git commit` and no `git push`
and returns success. -/
theorem C3_empty_diff_skips_commit_and_push (oracle : Oracle) (idx : Nat)
    (outputPath repoPathOverride remote componentName branch commitMessage : String)
    (hadd : (oracle idx).err = none)
    (hdiff : oracle (idx + 1) = ⟨"", none⟩) :
    (CommitAndPush oracle idx outputPath repoPathOverride remote componentName branch
        commitMessage).2 = none
    ∧ (CommitAndPush oracle idx outputPath repoPathOverride remote componentName branch
        commitMessage).1
      = [⟨commitAndPushRepoPath outputPath repoPathOverride componentName, "git", ["add", "."]⟩,
         ⟨commitAndPushRepoPath outputPath repoPathOverride componentName, "git",
           ["--no-pager", "diff", "--cached"]⟩]
    ∧ ∀ e ∈ (CommitAndPush oracle idx outputPath repoPathOverride remote componentName branch
        commitMessage).1, e.args.head? ≠ some "commit" ∧ e.args.head? ≠ some "push" := by
  have h : CommitAndPush oracle idx outputPath repoPathOverride remote componentName branch
      commitMessage
      = ([⟨commitAndPushRepoPath outputPath repoPathOverride componentName, "git", ["add", "."]⟩,
          ⟨commitAndPushRepoPath outputPath repoPathOverride componentName, "git",
            ["--no-pager", "diff", "--cached"]⟩], none) := by
    simp [CommitAndPush, hadd, hdiff]
  refine ⟨by rw [h], by rw [h], ?_⟩
  rw [h]
  intro e he
  rcases List.mem_cons.1 he with rfl | he
  · exact ⟨(by decide : (some "add" : Option String) ≠ some "commit"),
      (by decide : (some "add" : Option String) ≠ some "push")⟩
  rcases List.mem_cons.1 he with rfl | he
  · exact ⟨(by decide : (some "--no-pager" : Option String) ≠ some "commit"),
      (by decide : (some "--no-pager" : Option String) ≠ some "push")⟩
  · exact absurd he (List.not_mem_nil e)

/-- Witness for C3 at a concrete executor and inputs. -/
theorem C3_empty_diff_skips_commit_and_push_witness :
    ((oracleAllOk 0).err = none ∧ oracleAllOk 1 = ⟨"", none⟩)
    ∧ ((CommitAndPush oracleAllOk 0 "/fake/path" "" "https://r" "test-component" "main"
          "m").2 = none
      ∧ (CommitAndPush oracleAllOk 0 "/fake/path" "" "https://r" "test-component" "main" "m").1
        = [⟨commitAndPushRepoPath "/fake/path" "" "test-component", "git", ["add", "."]⟩,
           ⟨commitAndPushRepoPath "/fake/path" "" "test-component", "git",
             ["--no-pager", "diff", "--cached"]⟩]
      ∧ ∀ e ∈ (CommitAndPush oracleAllOk 0 "/fake/path" "" "https://r" "test-component" "main"
          "m").1, e.args.head? ≠ some "commit" ∧ e.args.head? ≠ some "push") :=
  ⟨⟨rfl, rfl⟩, C3_empty_diff_skips_commit_and_push oracleAllOk 0 "/fake/path" "" "https://r"
    "test-component" "main" "m" rfl rfl⟩

/-- C4: in every synchronization call (`CloneGenerateAndPush`,
`RemoveAndPush`, `GenerateOverlaysAndPush` with clone), when `git switch`
fails the `git checkout -b` fallback is executed exactly once, and when it
also fails the call terminates immediately — the trace ends at the checkout
— with an error naming the attempted branch and the repository working
directory. -/
theorem C4_checkout_fallback_once_then_terminal (oracle : Oracle)
    (outputPath remote componentName applicationName environmentName branch context : String)
    (genErr gpkErr : Option String) (doPush : Bool) (e2 e3 : String)
    (hclone : (oracle 0).err = none)
    (hswitch : (oracle 1).err = some e2)
    (hcheckout : (oracle 2).err = some e3) :
    ((CloneGenerateAndPush oracle outputPath remote componentName branch context genErr
          doPush).trace
        = [⟨outputPath, "git", ["clone", remote, componentName]⟩,
           ⟨filepathJoin outputPath componentName, "git", ["switch", branch]⟩,
           ⟨filepathJoin outputPath componentName, "git", ["checkout", "-b", branch]⟩]
      ∧ (CloneGenerateAndPush oracle outputPath remote componentName branch context genErr
          doPush).err
        = some (checkoutFailMsg branch (filepathJoin outputPath componentName)
            (oracle 2).out e3)
      ∧ ((CloneGenerateAndPush oracle outputPath remote componentName branch context genErr
          doPush).trace.countP (fun e => argHead e == "checkout")) = 1)
    ∧ ((RemoveAndPush oracle outputPath remote componentName branch context gpkErr
          doPush).trace
        = [⟨outputPath, "git", ["clone", remote, componentName]⟩,
           ⟨filepathJoin outputPath componentName, "git", ["switch", branch]⟩,
           ⟨filepathJoin outputPath componentName, "git", ["checkout", "-b", branch]⟩]
      ∧ (RemoveAndPush oracle outputPath remote componentName branch context gpkErr
          doPush).err
        = some (checkoutFailMsg branch (filepathJoin outputPath componentName)
            (oracle 2).out e3)
      ∧ ((RemoveAndPush oracle outputPath remote componentName branch context gpkErr
          doPush).trace.countP (fun e => argHead e == "checkout")) = 1
      ∧ (RemoveAndPush oracle outputPath remote componentName branch context gpkErr
          doPush).gpkFolder = none)
    ∧ ((GenerateOverlaysAndPush oracle outputPath true remote componentName applicationName
          environmentName branch context genErr doPush).trace
        = [⟨outputPath, "git", ["clone", remote, applicationName]⟩,
           ⟨filepathJoin outputPath applicationName, "git", ["switch", branch]⟩,
           ⟨filepathJoin outputPath applicationName, "git", ["checkout", "-b", branch]⟩]
      ∧ (GenerateOverlaysAndPush oracle outputPath true remote componentName applicationName
          environmentName branch context genErr doPush).err
        = some (checkoutFailMsg branch (filepathJoin outputPath applicationName)
            (oracle 2).out e3)
      ∧ ((GenerateOverlaysAndPush oracle outputPath true remote componentName applicationName
          environmentName branch context genErr doPush).trace.countP
            (fun e => argHead e == "checkout")) = 1)
    ∧ (∃ p q, checkoutFailMsg branch (filepathJoin outputPath componentName) (oracle 2).out e3
        = p ++ (branch ++ q))
    ∧ (∃ p q, checkoutFailMsg branch (filepathJoin outputPath componentName) (oracle 2).out e3
        = p ++ (filepathJoin outputPath componentName ++ q)) := by
  have hbr : ∀ rp : String, resolveBranch oracle rp branch 1
      = ([⟨rp, "git", ["switch", branch]⟩, ⟨rp, "git", ["checkout", "-b", branch]⟩],
         some (checkoutFailMsg branch rp (oracle 2).out e3), 3) := by
    intro rp
    simp [resolveBranch, hswitch, hcheckout]
  have h1 : CloneGenerateAndPush oracle outputPath remote componentName branch context genErr
      doPush
      = ⟨[⟨outputPath, "git", ["clone", remote, componentName]⟩,
          ⟨filepathJoin outputPath componentName, "git", ["switch", branch]⟩,
          ⟨filepathJoin outputPath componentName, "git", ["checkout", "-b", branch]⟩], none,
         some (checkoutFailMsg branch (filepathJoin outputPath componentName)
           (oracle 2).out e3)⟩ := by
    simp [CloneGenerateAndPush, hclone, hbr]
  have h2 : RemoveAndPush oracle outputPath remote componentName branch context gpkErr doPush
      = ⟨[⟨outputPath, "git", ["clone", remote, componentName]⟩,
          ⟨filepathJoin outputPath componentName, "git", ["switch", branch]⟩,
          ⟨filepathJoin outputPath componentName, "git", ["checkout", "-b", branch]⟩], none,
         some (checkoutFailMsg branch (filepathJoin outputPath componentName)
           (oracle 2).out e3)⟩ := by
    simp [RemoveAndPush, hclone, hbr]
  have h3 : GenerateOverlaysAndPush oracle outputPath true remote componentName applicationName
      environmentName branch context genErr doPush
      = ⟨[⟨outputPath, "git", ["clone", remote, applicationName]⟩,
          ⟨filepathJoin outputPath applicationName, "git", ["switch", branch]⟩,
          ⟨filepathJoin outputPath applicationName, "git", ["checkout", "-b", branch]⟩], none,
         some (checkoutFailMsg branch (filepathJoin outputPath applicationName)
           (oracle 2).out e3)⟩ := by
    simp [GenerateOverlaysAndPush, hclone, hbr]
  refine ⟨⟨by rw [h1], by rw [h1], by rw [h1]; rfl⟩,
    ⟨by rw [h2], by rw [h2], by rw [h2]; rfl, by rw [h2]⟩,
    ⟨by rw [h3], by rw [h3], by rw [h3]; rfl⟩,
    (checkoutFailMsg_mentions branch (filepathJoin outputPath componentName)
      (oracle 2).out e3).1,
    (checkoutFailMsg_mentions branch (filepathJoin outputPath componentName)
      (oracle 2).out e3).2⟩

/-- Witness for C4 at a concrete executor and inputs. -/
theorem C4_checkout_fallback_once_then_terminal_witness :
    ((oracleBranchFail 0).err = none
      ∧ (oracleBranchFail 1).err = some "Permission denied"
      ∧ (oracleBranchFail 2).err = some "Permission denied")
    ∧ (((CloneGenerateAndPush oracleBranchFail "/fake/path" "r" "c" "main" "/" none true).trace
        = [⟨"/fake/path", "git", ["clone", "r", "c"]⟩,
           ⟨filepathJoin "/fake/path" "c", "git", ["switch", "main"]⟩,
           ⟨filepathJoin "/fake/path" "c", "git", ["checkout", "-b", "main"]⟩]
      ∧ (CloneGenerateAndPush oracleBranchFail "/fake/path" "r" "c" "main" "/" none true).err
        = some (checkoutFailMsg "main" (filepathJoin "/fake/path" "c")
            (oracleBranchFail 2).out "Permission denied")
      ∧ ((CloneGenerateAndPush oracleBranchFail "/fake/path" "r" "c" "main" "/" none
          true).trace.countP (fun e => argHead e == "checkout")) = 1)
    ∧ ((RemoveAndPush oracleBranchFail "/fake/path" "r" "c" "main" "/" none true).trace
        = [⟨"/fake/path", "git", ["clone", "r", "c"]⟩,
           ⟨filepathJoin "/fake/path" "c", "git", ["switch", "main"]⟩,
           ⟨filepathJoin "/fake/path" "c", "git", ["checkout", "-b", "main"]⟩]
      ∧ (RemoveAndPush oracleBranchFail "/fake/path" "r" "c" "main" "/" none true).err
        = some (checkoutFailMsg "main" (filepathJoin "/fake/path" "c")
            (oracleBranchFail 2).out "Permission denied")
      ∧ ((RemoveAndPush oracleBranchFail "/fake/path" "r" "c" "main" "/" none
          true).trace.countP (fun e => argHead e == "checkout")) = 1
      ∧ (RemoveAndPush oracleBranchFail "/fake/path" "r" "c" "main" "/" none true).gpkFolder
        = none)
    ∧ ((GenerateOverlaysAndPush oracleBranchFail "/fake/path" true "r" "c" "app" "env" "main"
          "/" none true).trace
        = [⟨"/fake/path", "git", ["clone", "r", "app"]⟩,
           ⟨filepathJoin "/fake/path" "app", "git", ["switch", "main"]⟩,
           ⟨filepathJoin "/fake/path" "app", "git", ["checkout", "-b", "main"]⟩]
      ∧ (GenerateOverlaysAndPush oracleBranchFail "/fake/path" true "r" "c" "app" "env" "main"
          "/" none true).err
        = some (checkoutFailMsg "main" (filepathJoin "/fake/path" "app")
            (oracleBranchFail 2).out "Permission denied")
      ∧ ((GenerateOverlaysAndPush oracleBranchFail "/fake/path" true "r" "c" "app" "env" "main"
          "/" none true).trace.countP (fun e => argHead e == "checkout")) = 1)
    ∧ (∃ p q, checkoutFailMsg "main" (filepathJoin "/fake/path" "c")
        (oracleBranchFail 2).out "Permission denied" = p ++ ("main" ++ q))
    ∧ (∃ p q, checkoutFailMsg "main" (filepathJoin "/fake/path" "c")
        (oracleBranchFail 2).out "Permission denied"
        = p ++ (filepathJoin "/fake/path" "c" ++ q))) :=
  ⟨⟨rfl, rfl, rfl⟩, C4_checkout_fallback_once_then_terminal oracleBranchFail "/fake/path" "r"
    "c" "app" "env" "main" "/" none none true "Permission denied" "Permission denied"
    rfl rfl rfl⟩

/-- C5 (refuted by the code): on the snapshot's `CommitAndPush`, the
`git push` failure message embeds the remote verbatim — a credential token
in the URL's user-info position survives into the returned error, and no
`<TOKEN>` redaction marker appears — although the repository's own
`TestSanitizeErrorMessage` and its "git push failure with sanitized error
message" test expect the sanitized form. -/
theorem C5_push_error_embeds_raw_token :
    ((CommitAndPush oraclePushFail 0 "/fake/path" ""
        "https://ghu_28lafsjdifouwej@github.com/testing/testing.git"
        "test-component" "main" "Generate GitOps base resources for component test-component").2.map
      (fun msg => (strOccurs msg "ghu_28lafsjdifouwej", strOccurs msg "<TOKEN>")))
      = some (true, false) := by
  decide

/-- C6 counterexample: on the `TestGenerate` fixture with two Deployments,
two Ingresses and a Pod supplied through `Others`, the aggregate file holds
the `Others` entry first — `[pod1, deployment2, ingress1, ingress2]`,
exactly the test's expected `others2` contents — while the order the claim
asserts (Deployments, Services, Routes, Ingresses, then Others) would put
it last. -/
theorem C6_aggregate_order_counterexample :
    (placeKubernetesResources c6Fixture).otherResourcesYaml
        = ["pod1", "deployment2", "ingress1", "ingress2"]
    ∧ claimedAggregateOrder c6Fixture = ["deployment2", "ingress1", "ingress2", "pod1"]
    ∧ (placeKubernetesResources c6Fixture).otherResourcesYaml
        ≠ claimedAggregateOrder c6Fixture := by
  decide

/-- C6 (amended): the first resource of each kind goes to its canonical
file, and every subsequent resource plus the `Others` entries go to the
aggregate file — the `Others` entries first in their given order, followed
by the extra Deployments, Services, Routes and all Ingresses in discovery
order.  Both `TestGenerate` aggregate fixtures are reproduced. -/
theorem C6_first_canonical_rest_aggregated (r : KubernetesResources) :
    (placeKubernetesResources r).deploymentYaml = r.Deployments.head?
    ∧ (placeKubernetesResources r).serviceYaml = r.Services.head?
    ∧ (placeKubernetesResources r).routeYaml = r.Routes.head?
    ∧ (placeKubernetesResources r).otherResourcesYaml
        = r.Others ++ (r.Deployments.drop 1 ++ (r.Services.drop 1
            ++ (r.Routes.drop 1 ++ r.Ingresses)))
    ∧ placeKubernetesResources
        ⟨["deployment1", "deployment2"], ["service1", "service2"], ["route1", "route2"],
          [], []⟩
      = ⟨some "deployment1", some "service1", some "route1",
         ["deployment2", "service2", "route2"]⟩
    ∧ placeKubernetesResources c6Fixture
      = ⟨some "deployment1", none, none, ["pod1", "deployment2", "ingress1", "ingress2"]⟩ := by
  refine ⟨rfl, rfl, rfl, ?_, by decide, by decide⟩
  simp [placeKubernetesResources, List.append_assoc]

/-- C7: a fully successful `RemoveAndPush` with staged changes deletes the
whole `components/<componentName>` directory with a single `rm -rf`,
invokes `GenerateParentKustomize` on the gitops folder to recompute the
parent manifest, and commits with the fixed message
`Removed component <componentName>` before pushing. -/
theorem C7_remove_success_shape (oracle : Oracle)
    (outputPath remote componentName branch context : String)
    (h0 : (oracle 0).err = none) (h1 : (oracle 1).err = none)
    (h2 : (oracle 2).err = none) (h3 : (oracle 3).err = none)
    (h4 : (oracle 4).err = none) (hdiff : (oracle 4).out ≠ "")
    (h5 : (oracle 5).err = none) (h6 : (oracle 6).err = none) :
    (RemoveAndPush oracle outputPath remote componentName branch context none true).err = none
    ∧ (RemoveAndPush oracle outputPath remote componentName branch context none
        true).gpkFolder
      = some (filepathJoin (filepathJoin outputPath componentName) context)
    ∧ (RemoveAndPush oracle outputPath remote componentName branch context none true).trace
      = [⟨outputPath, "git", ["clone", remote, componentName]⟩,
         ⟨filepathJoin outputPath componentName, "git", ["switch", branch]⟩,
         ⟨filepathJoin outputPath componentName, "rm",
           ["-rf", filepathJoin (filepathJoin (filepathJoin (filepathJoin outputPath
             componentName) context) "components") componentName]⟩,
         ⟨filepathJoin outputPath componentName, "git", ["add", "."]⟩,
         ⟨filepathJoin outputPath componentName, "git", ["--no-pager", "diff", "--cached"]⟩,
         ⟨filepathJoin outputPath componentName, "git",
           ["commit", "-m", "Removed component " ++ componentName]⟩,
         ⟨filepathJoin outputPath componentName, "git", ["push", "origin", branch]⟩]
    ∧ ((RemoveAndPush oracle outputPath remote componentName branch context none
        true).trace.countP (fun e => e.command == "rm")) = 1 := by
  have h : RemoveAndPush oracle outputPath remote componentName branch context none true
      = ⟨[⟨outputPath, "git", ["clone", remote, componentName]⟩,
          ⟨filepathJoin outputPath componentName, "git", ["switch", branch]⟩,
          ⟨filepathJoin outputPath componentName, "rm",
            ["-rf", filepathJoin (filepathJoin (filepathJoin (filepathJoin outputPath
              componentName) context) "components") componentName]⟩,
          ⟨filepathJoin outputPath componentName, "git", ["add", "."]⟩,
          ⟨filepathJoin outputPath componentName, "git", ["--no-pager", "diff", "--cached"]⟩,
          ⟨filepathJoin outputPath componentName, "git",
            ["commit", "-m", "Removed component " ++ componentName]⟩,
          ⟨filepathJoin outputPath componentName, "git", ["push", "origin", branch]⟩],
         some (filepathJoin (filepathJoin outputPath componentName) context), none⟩ := by
    simp [RemoveAndPush, resolveBranch, removeTail, CommitAndPush, commitAndPushRepoPath,
      h0, h1, h2, h3, h4, h5, h6, hdiff]
  exact ⟨by rw [h], by rw [h], by rw [h], by rw [h]; rfl⟩

/-- Witness for C7 at a concrete executor and inputs. -/
theorem C7_remove_success_shape_witness :
    ((oracleRemoveOk 0).err = none ∧ (oracleRemoveOk 1).err = none
      ∧ (oracleRemoveOk 2).err = none ∧ (oracleRemoveOk 3).err = none
      ∧ (oracleRemoveOk 4).err = none ∧ (oracleRemoveOk 4).out ≠ ""
      ∧ (oracleRemoveOk 5).err = none ∧ (oracleRemoveOk 6).err = none)
    ∧ ((RemoveAndPush oracleRemoveOk "/fake/path" "r" "c" "main" "/" none true).err = none
      ∧ (RemoveAndPush oracleRemoveOk "/fake/path" "r" "c" "main" "/" none true).gpkFolder
        = some (filepathJoin (filepathJoin "/fake/path" "c") "/")
      ∧ (RemoveAndPush oracleRemoveOk "/fake/path" "r" "c" "main" "/" none true).trace
        = [⟨"/fake/path", "git", ["clone", "r", "c"]⟩,
           ⟨filepathJoin "/fake/path" "c", "git", ["switch", "main"]⟩,
           ⟨filepathJoin "/fake/path" "c", "rm",
             ["-rf", filepathJoin (filepathJoin (filepathJoin (filepathJoin "/fake/path" "c")
               "/") "components") "c"]⟩,
           ⟨filepathJoin "/fake/path" "c", "git", ["add", "."]⟩,
           ⟨filepathJoin "/fake/path" "c", "git", ["--no-pager", "diff", "--cached"]⟩,
           ⟨filepathJoin "/fake/path" "c", "git", ["commit", "-m", "Removed component " ++ "c"]⟩,
           ⟨filepathJoin "/fake/path" "c", "git", ["push", "origin", "main"]⟩]
      ∧ ((RemoveAndPush oracleRemoveOk "/fake/path" "r" "c" "main" "/" none
          true).trace.countP (fun e => e.command == "rm")) = 1) :=
  ⟨⟨rfl, rfl, rfl, rfl, rfl, by decide, rfl, rfl⟩,
    C7_remove_success_shape oracleRemoveOk "/fake/path" "r" "c" "main" "/"
      rfl rfl rfl rfl rfl (by decide) rfl rfl⟩

/-- C8: a failed `git clone` is terminal in every driver — the clone is the
only executed command, the call errors out, and `GenerateParentKustomize`
is never invoked — and no driver ever retries a command: under every
executor behavior the trace holds pairwise-distinct commands, the checkout
fallback included at most once. -/
theorem C8_clone_terminal_and_no_retries (o1 o2 : Oracle)
    (outputPath remote componentName applicationName environmentName branch context : String)
    (genErr gpkErr : Option String) (doPush clone : Bool) (e1 : String)
    (hclone : (o1 0).err = some e1) :
    ((CloneGenerateAndPush o1 outputPath remote componentName branch context genErr
          doPush).trace
        = [⟨outputPath, "git", ["clone", remote, componentName]⟩]
      ∧ (CloneGenerateAndPush o1 outputPath remote componentName branch context genErr
          doPush).err = some (cloneFailMsg outputPath (o1 0).out e1)
      ∧ (RemoveAndPush o1 outputPath remote componentName branch context gpkErr doPush).trace
        = [⟨outputPath, "git", ["clone", remote, componentName]⟩]
      ∧ (RemoveAndPush o1 outputPath remote componentName branch context gpkErr doPush).err
        = some (cloneFailMsg outputPath (o1 0).out e1)
      ∧ (RemoveAndPush o1 outputPath remote componentName branch context gpkErr
          doPush).gpkFolder = none
      ∧ (GenerateOverlaysAndPush o1 outputPath true remote componentName applicationName
          environmentName branch context genErr doPush).trace
        = [⟨outputPath, "git", ["clone", remote, applicationName]⟩]
      ∧ (GenerateOverlaysAndPush o1 outputPath true remote componentName applicationName
          environmentName branch context genErr doPush).err
        = some (cloneFailMsg outputPath (o1 0).out e1))
    ∧ ((CloneGenerateAndPush o2 outputPath remote componentName branch context genErr
          doPush).trace.Nodup
      ∧ (RemoveAndPush o2 outputPath remote componentName branch context gpkErr
          doPush).trace.Nodup
      ∧ (GenerateOverlaysAndPush o2 outputPath clone remote componentName applicationName
          environmentName branch context genErr doPush).trace.Nodup) := by
  have haCG : CloneGenerateAndPush o1 outputPath remote componentName branch context genErr
      doPush = ⟨[⟨outputPath, "git", ["clone", remote, componentName]⟩], none,
        some (cloneFailMsg outputPath (o1 0).out e1)⟩ := by
    simp [CloneGenerateAndPush, hclone]
  have haRM : RemoveAndPush o1 outputPath remote componentName branch context gpkErr doPush
      = ⟨[⟨outputPath, "git", ["clone", remote, componentName]⟩], none,
        some (cloneFailMsg outputPath (o1 0).out e1)⟩ := by
    simp [RemoveAndPush, hclone]
  have haOV : GenerateOverlaysAndPush o1 outputPath true remote componentName applicationName
      environmentName branch context genErr doPush
      = ⟨[⟨outputPath, "git", ["clone", remote, applicationName]⟩], none,
        some (cloneFailMsg outputPath (o1 0).out e1)⟩ := by
    simp [GenerateOverlaysAndPush, hclone]
  refine ⟨⟨by rw [haCG], by rw [haCG], by rw [haRM], by rw [haRM], by rw [haRM],
    by rw [haOV], by rw [haOV]⟩, ?_, ?_, ?_⟩
  · exact List.Nodup.of_map argHead
      (List.Nodup.sublist (cloneGenerateAndPush_argHead_sublist o2 outputPath remote
        componentName branch context genErr doPush) (by decide))
  · exact List.Nodup.of_map argHead
      (List.Nodup.sublist (removeAndPush_argHead_sublist o2 outputPath remote componentName
        branch context gpkErr doPush) (by decide))
  · exact List.Nodup.of_map argHead
      (List.Nodup.sublist (generateOverlaysAndPush_argHead_sublist o2 outputPath clone remote
        componentName applicationName environmentName branch context genErr doPush)
        (by decide))

/-- Witness for C8 at concrete executors and inputs. -/
theorem C8_clone_terminal_and_no_retries_witness :
    ((oracleCloneFail 0).err = some "Fatal error")
    ∧ (((CloneGenerateAndPush oracleCloneFail "/fake/path" "r" "c" "main" "/" none true).trace
        = [⟨"/fake/path", "git", ["clone", "r", "c"]⟩]
      ∧ (CloneGenerateAndPush oracleCloneFail "/fake/path" "r" "c" "main" "/" none true).err
        = some (cloneFailMsg "/fake/path" (oracleCloneFail 0).out "Fatal error")
      ∧ (RemoveAndPush oracleCloneFail "/fake/path" "r" "c" "main" "/" none true).trace
        = [⟨"/fake/path", "git", ["clone", "r", "c"]⟩]
      ∧ (RemoveAndPush oracleCloneFail "/fake/path" "r" "c" "main" "/" none true).err
        = some (cloneFailMsg "/fake/path" (oracleCloneFail 0).out "Fatal error")
      ∧ (RemoveAndPush oracleCloneFail "/fake/path" "r" "c" "main" "/" none true).gpkFolder
        = none
      ∧ (GenerateOverlaysAndPush oracleCloneFail "/fake/path" true "r" "c" "app" "env" "main"
          "/" none true).trace
        = [⟨"/fake/path", "git", ["clone", "r", "app"]⟩]
      ∧ (GenerateOverlaysAndPush oracleCloneFail "/fake/path" true "r" "c" "app" "env" "main"
          "/" none true).err
        = some (cloneFailMsg "/fake/path" (oracleCloneFail 0).out "Fatal error"))
    ∧ ((CloneGenerateAndPush oracleAllOk "/fake/path" "r" "c" "main" "/" none true).trace.Nodup
      ∧ (RemoveAndPush oracleAllOk "/fake/path" "r" "c" "main" "/" none true).trace.Nodup
      ∧ (GenerateOverlaysAndPush oracleAllOk "/fake/path" true "r" "c" "app" "env" "main" "/"
          none true).trace.Nodup)) :=
  ⟨rfl, C8_clone_terminal_and_no_retries oracleCloneFail oracleAllOk "/fake/path" "r" "c"
    "app" "env" "main" "/" none none true true "Fatal error" rfl⟩

end GitopsGen
